import Mathlib

/-!
Verification development for `plot_load_test_results.py`.

The script loads a CSV table of load-test rows, computes the distinct
`Workload` values in first-occurrence order (pandas `unique`), creates the
plots directory, and draws two charts (throughput and response time vs
threads), one line series per workload, colored from a fixed 4-entry
palette indexed by the enumeration counter, saving each chart to a fixed
path and finally printing a success message.

The embedding models the table as a list of rows, each chart as a list of
series, and a run of the script as the list of side effects it performs
(directory creation, image writes, console output) together with an
optional uncaught error.
-/

/-- A row of `./load_test_results/summary.csv`: columns `Workload`,
`Threads`, `AvgThroughput`, `AvgResponseTime`. Threads is integral, the
two metrics are (exact) numbers; the script performs no arithmetic on
them. -/
structure Row where
  workload : String
  threads : Int
  avgThroughput : Rat
  avgResponseTime : Rat
deriving DecidableEq

/-- `colors = ['tab:blue', 'tab:orange', 'tab:green', 'tab:red']` (line 16). -/
def colors : List String := ["tab:blue", "tab:orange", "tab:green", "tab:red"]

/-- Helper for pandas `Series.unique`: keep each value the first time it is
seen, tracking already-seen values in `seen`. -/
def pdUniqueAux (seen : List String) : List String → List String
  | [] => []
  | x :: xs => if x ∈ seen then pdUniqueAux seen xs else x :: pdUniqueAux (x :: seen) xs

/-- `workloads = df['Workload'].unique()` (line 8): distinct values in
first-occurrence order. -/
def uniqueWorkloads (df : List Row) : List String :=
  pdUniqueAux [] (df.map Row.workload)

/-- `wdf = df[df['Workload'] == workload]` (lines 21 and 33): the rows of
the table with the given workload, in original row order. -/
def filterWorkload (df : List Row) (w : String) : List Row :=
  df.filter (fun r => r.workload == w)

/-- One line series drawn by a `plt.plot` call: its legend label, its
color, and its `(Threads, metric)` points. -/
structure Series where
  label : String
  color : String
  points : List (Int × Rat)
deriving DecidableEq

/-- The uncaught exceptions the script can raise: `FileNotFoundError` from
`pd.read_csv` (line 5) and `IndexError` from `colors[i]` (lines 22, 34). -/
inductive RunError where
  | fileNotFound
  | indexError
deriving DecidableEq

/-- Index of the first occurrence of a value in a list (0 when absent past
the end); used to state the first-occurrence ordering of `uniqueWorkloads`. -/
def firstOccIdx : List String → String → Nat
  | [], _ => 0
  | x :: xs, a => if x = a then 0 else firstOccIdx xs a + 1

/-- The body of `for i, workload in enumerate(workloads)` (lines 20-22 and
32-34): for each workload, look up `colors[i]` (raising `IndexError` when
`i` is out of bounds) and draw the series of that workload's
`(Threads, metric)` points. -/
def plotLoop (df : List Row) (metric : Row → Rat) : Nat → List String → Except RunError (List Series)
  | _, [] => Except.ok []
  | i, w :: ws =>
    match colors[i]? with
    | none => Except.error RunError.indexError
    | some c =>
      match plotLoop df metric (i + 1) ws with
      | Except.error e => Except.error e
      | Except.ok ss =>
        Except.ok ({ label := w, color := c,
                     points := (filterWorkload df w).map (fun r => (r.threads, metric r)) } :: ss)

/-- One chart: run the plot loop over all distinct workloads starting at
enumeration index 0. -/
def buildChart (df : List Row) (metric : Row → Rat) : Except RunError (List Series) :=
  plotLoop df metric 0 (uniqueWorkloads df)

/-- Observable side effects of the script: `os.makedirs` (line 12),
`plt.savefig` (lines 27 and 39) and `print` (line 42). -/
inductive Event where
  | makeDirs (path : String)
  | saveFig (path : String) (chart : List Series)
  | printMsg (msg : String)
deriving DecidableEq

/-- Fixed plots directory path (line 12). -/
def plotsDir : String := "./load_test_results/plots"

/-- Fixed throughput image path (line 27). -/
def throughputPng : String := "./load_test_results/plots/clients_vs_throughput.png"

/-- Fixed response-time image path (line 39). -/
def responseTimePng : String := "./load_test_results/plots/clients_vs_response_time.png"

/-- The success message printed on line 42. -/
def successMsg : String := "Plots saved to ./load_test_results/plots/"

/-- A whole run of the script. The input is `none` when
`./load_test_results/summary.csv` does not exist (then `pd.read_csv` on
line 5 raises before anything else happens), otherwise the loaded table.
The result is the ordered list of side effects performed and the uncaught
error, if any: read, then makedirs, then the throughput chart (saved on
line 27), then the response-time chart (saved on line 39), then the print. -/
def run (input : Option (List Row)) : List Event × Option RunError :=
  match input with
  | none => ([], some RunError.fileNotFound)
  | some df =>
    match buildChart df Row.avgThroughput with
    | Except.error e => ([Event.makeDirs plotsDir], some e)
    | Except.ok c1 =>
      match buildChart df Row.avgResponseTime with
      | Except.error e =>
        ([Event.makeDirs plotsDir, Event.saveFig throughputPng c1], some e)
      | Except.ok c2 =>
        ([Event.makeDirs plotsDir, Event.saveFig throughputPng c1,
          Event.saveFig responseTimePng c2, Event.printMsg successMsg], none)

/-- Big-step description of a run as a relation, mirroring the script's
control flow case by case; used to state that the script is deterministic. -/
inductive Runs : Option (List Row) → List Event × Option RunError → Prop where
  | missing : Runs none ([], some RunError.fileNotFound)
  | chart1Fails (df : List Row) (e : RunError) :
      buildChart df Row.avgThroughput = Except.error e →
      Runs (some df) ([Event.makeDirs plotsDir], some e)
  | chart2Fails (df : List Row) (c1 : List Series) (e : RunError) :
      buildChart df Row.avgThroughput = Except.ok c1 →
      buildChart df Row.avgResponseTime = Except.error e →
      Runs (some df) ([Event.makeDirs plotsDir, Event.saveFig throughputPng c1], some e)
  | success (df : List Row) (c1 c2 : List Series) :
      buildChart df Row.avgThroughput = Except.ok c1 →
      buildChart df Row.avgResponseTime = Except.ok c2 →
      Runs (some df) ([Event.makeDirs plotsDir, Event.saveFig throughputPng c1,
        Event.saveFig responseTimePng c2, Event.printMsg successMsg], none)

/-- `run` realizes the `Runs` relation. -/
theorem runs_run (inp : Option (List Row)) : Runs inp (run inp) := by
  cases inp with
  | none => exact Runs.missing
  | some df =>
    cases h1 : buildChart df Row.avgThroughput with
    | error e =>
      have hr : run (some df) = ([Event.makeDirs plotsDir], some e) := by
        simp [run, h1]
      rw [hr]; exact Runs.chart1Fails df e h1
    | ok c1 =>
      cases h2 : buildChart df Row.avgResponseTime with
      | error e =>
        have hr : run (some df) =
            ([Event.makeDirs plotsDir, Event.saveFig throughputPng c1], some e) := by
          simp [run, h1, h2]
        rw [hr]; exact Runs.chart2Fails df c1 e h1 h2
      | ok c2 =>
        have hr : run (some df) =
            ([Event.makeDirs plotsDir, Event.saveFig throughputPng c1,
              Event.saveFig responseTimePng c2, Event.printMsg successMsg], none) := by
          simp [run, h1, h2]
        rw [hr]; exact Runs.success df c1 c2 h1 h2

/-- Membership in `pdUniqueAux`: exactly the values of the input that are
not already seen. -/
theorem mem_pdUniqueAux (l : List String) (seen : List String) (a : String) :
    a ∈ pdUniqueAux seen l ↔ a ∈ l ∧ a ∉ seen := by
  induction l generalizing seen with
  | nil => simp [pdUniqueAux]
  | cons x xs ih =>
    by_cases hx : x ∈ seen
    · rw [pdUniqueAux, if_pos hx, ih]
      constructor
      · rintro ⟨ha, hs⟩; exact ⟨List.mem_cons_of_mem _ ha, hs⟩
      · rintro ⟨ha, hs⟩
        rcases List.mem_cons.mp ha with h | h
        · exact absurd (h ▸ hx) hs
        · exact ⟨h, hs⟩
    · rw [pdUniqueAux, if_neg hx]
      constructor
      · intro h
        rcases List.mem_cons.mp h with h | h
        · exact ⟨h ▸ List.mem_cons_self x xs, h ▸ hx⟩
        · rcases (ih (x :: seen)).mp h with ⟨ha, hs⟩
          exact ⟨List.mem_cons_of_mem _ ha, fun hc => hs (List.mem_cons_of_mem _ hc)⟩
      · rintro ⟨ha, hs⟩
        by_cases hax : a = x
        · exact hax ▸ List.mem_cons_self x _
        · rcases List.mem_cons.mp ha with h | h
          · exact absurd h hax
          · exact List.mem_cons_of_mem _ ((ih (x :: seen)).mpr
              ⟨h, fun hc => (List.mem_cons.mp hc).elim hax hs⟩)

/-- `pdUniqueAux` yields no duplicates. -/
theorem nodup_pdUniqueAux (l : List String) (seen : List String) :
    (pdUniqueAux seen l).Nodup := by
  induction l generalizing seen with
  | nil => simp [pdUniqueAux]
  | cons x xs ih =>
    by_cases hx : x ∈ seen
    · rw [pdUniqueAux, if_pos hx]; exact ih seen
    · rw [pdUniqueAux, if_neg hx]
      refine List.nodup_cons.mpr ⟨fun hc => ?_, ih (x :: seen)⟩
      exact ((mem_pdUniqueAux _ _ _).mp hc).2 (List.mem_cons_self x seen)

/-- `firstOccIdx` on a cons cell whose head differs. -/
theorem firstOccIdx_cons_ne (x : String) (xs : List String) (a : String) (h : x ≠ a) :
    firstOccIdx (x :: xs) a = firstOccIdx xs a + 1 := by
  simp [firstOccIdx, h]

/-- The values kept by `pdUniqueAux` appear in first-occurrence order:
first-occurrence indices in the scanned list are strictly increasing along
the output. -/
theorem pairwise_firstOccIdx_pdUniqueAux (l : List String) (seen : List String) :
    (pdUniqueAux seen l).Pairwise (fun a b => firstOccIdx l a < firstOccIdx l b) := by
  induction l generalizing seen with
  | nil => simp [pdUniqueAux]
  | cons x xs ih =>
    by_cases hx : x ∈ seen
    · rw [pdUniqueAux, if_pos hx]
      refine (ih seen).imp_of_mem ?_
      intro a b ha hb hab
      have hax : x ≠ a := fun h => ((mem_pdUniqueAux _ _ _).mp ha).2 (h ▸ hx)
      have hbx : x ≠ b := fun h => ((mem_pdUniqueAux _ _ _).mp hb).2 (h ▸ hx)
      rw [firstOccIdx_cons_ne x xs a hax, firstOccIdx_cons_ne x xs b hbx]
      omega
    · rw [pdUniqueAux, if_neg hx]
      refine List.pairwise_cons.mpr ⟨?_, ?_⟩
      · intro b hb
        have hbx : x ≠ b := fun h =>
          ((mem_pdUniqueAux _ _ _).mp hb).2 (h ▸ List.mem_cons_self x seen)
        rw [firstOccIdx_cons_ne x xs b hbx]
        simp [firstOccIdx]
      · refine (ih (x :: seen)).imp_of_mem ?_
        intro a b ha hb hab
        have hax : x ≠ a := fun h =>
          ((mem_pdUniqueAux _ _ _).mp ha).2 (h ▸ List.mem_cons_self x seen)
        have hbx : x ≠ b := fun h =>
          ((mem_pdUniqueAux _ _ _).mp hb).2 (h ▸ List.mem_cons_self x seen)
        rw [firstOccIdx_cons_ne x xs a hax, firstOccIdx_cons_ne x xs b hbx]
        omega

/-- When the plot loop succeeds, the series labels are exactly the
workloads iterated in order, the colors are the palette entries from the
starting index on, and each series holds its workload's filtered
`(Threads, metric)` points. -/
theorem plotLoop_ok (df : List Row) (metric : Row → Rat) (ws : List String) (i : Nat)
    (cs : List Series) (h : plotLoop df metric i ws = Except.ok cs) :
    cs.map Series.label = ws ∧
    cs.map Series.color = (colors.drop i).take ws.length ∧
    ∀ s ∈ cs, s.points = (filterWorkload df s.label).map (fun r => (r.threads, metric r)) := by
  induction ws generalizing i cs with
  | nil =>
    rw [plotLoop] at h
    cases h
    simp
  | cons w ws ih =>
    rw [plotLoop] at h
    cases hc : colors[i]? with
    | none => rw [hc] at h; cases h
    | some c =>
      rw [hc] at h
      cases hrec : plotLoop df metric (i + 1) ws with
      | error e => rw [hrec] at h; cases h
      | ok ss =>
        rw [hrec] at h
        cases h
        obtain ⟨hl, hcol, hp⟩ := ih (i + 1) ss hrec
        have hi : i < colors.length := by
          by_contra hge
          rw [List.getElem?_eq_none (Nat.le_of_not_lt hge)] at hc
          cases hc
        have hdrop : colors.drop i = colors[i] :: colors.drop (i + 1) :=
          List.drop_eq_getElem_cons hi
        have hcv : c = colors[i] := by
          rw [List.getElem?_eq_getElem hi] at hc
          cases hc; rfl
        refine ⟨by simp [hl], ?_, ?_⟩
        · simp only [List.map_cons, hcol, List.length_cons, hcv, hdrop, List.take_succ_cons]
        · intro s hs
          rcases List.mem_cons.mp hs with h | h
          · rw [h]
          · exact hp s h

/-- When the workloads fit the palette from the starting index on, the
plot loop succeeds. -/
theorem plotLoop_total (df : List Row) (metric : Row → Rat) (ws : List String) (i : Nat)
    (h : i + ws.length ≤ colors.length) :
    ∃ cs, plotLoop df metric i ws = Except.ok cs := by
  induction ws generalizing i with
  | nil => exact ⟨[], rfl⟩
  | cons w ws ih =>
    have hi : i < colors.length := by
      simp only [List.length_cons] at h
      omega
    obtain ⟨ss, hss⟩ := ih (i + 1) (by simp only [List.length_cons] at h; omega)
    refine ⟨{ label := w, color := colors[i],
              points := (filterWorkload df w).map (fun r => (r.threads, metric r)) } :: ss, ?_⟩
    rw [plotLoop, List.getElem?_eq_getElem hi, hss]

/-- When the workloads overflow the palette from the starting index on,
the plot loop raises the index error. -/
theorem plotLoop_overflow (df : List Row) (metric : Row → Rat) (ws : List String) (i : Nat)
    (hne : ws ≠ []) (h : colors.length < i + ws.length) :
    plotLoop df metric i ws = Except.error RunError.indexError := by
  induction ws generalizing i with
  | nil => exact absurd rfl hne
  | cons w ws ih =>
    rw [plotLoop]
    by_cases hi : i < colors.length
    · have hws : ws ≠ [] := by
        intro hnil
        rw [hnil] at h
        simp only [List.length_cons, List.length_nil] at h
        omega
      rw [List.getElem?_eq_getElem hi,
        ih (i + 1) hws (by simp only [List.length_cons] at h; omega)]
    · rw [List.getElem?_eq_none (Nat.le_of_not_lt hi)]

/-- A table whose distinct workloads fit the 4-entry palette yields a full
successful run: both charts build, both images are saved in order, and the
success message is printed. -/
theorem run_success (df : List Row) (h : (uniqueWorkloads df).length ≤ colors.length) :
    ∃ c1 c2,
      buildChart df Row.avgThroughput = Except.ok c1 ∧
      buildChart df Row.avgResponseTime = Except.ok c2 ∧
      run (some df) = ([Event.makeDirs plotsDir, Event.saveFig throughputPng c1,
        Event.saveFig responseTimePng c2, Event.printMsg successMsg], none) := by
  obtain ⟨c1, h1⟩ := plotLoop_total df Row.avgThroughput (uniqueWorkloads df) 0 (by omega)
  obtain ⟨c2, h2⟩ := plotLoop_total df Row.avgResponseTime (uniqueWorkloads df) 0 (by omega)
  exact ⟨c1, c2, h1, h2, by simp [run, buildChart, h1, h2]⟩

/-- A table whose distinct workloads overflow the palette makes the run
abort with the index error right after creating the plots directory. -/
theorem run_overflow (df : List Row) (h : colors.length < (uniqueWorkloads df).length) :
    run (some df) = ([Event.makeDirs plotsDir], some RunError.indexError) := by
  have hne : uniqueWorkloads df ≠ [] := by
    intro hnil
    rw [hnil] at h
    simp at h
  have hb : ∀ metric, buildChart df metric = Except.error RunError.indexError := fun metric =>
    plotLoop_overflow df metric (uniqueWorkloads df) 0 hne (by omega)
  simp [run, hb]

/-- Example table: one workload, one row. -/
def exTable1 : List Row :=
  [{ workload := "A", threads := 1, avgThroughput := 100, avgResponseTime := 10 }]

/-- Example table: two workloads. -/
def exTable2 : List Row :=
  [{ workload := "A", threads := 1, avgThroughput := 100, avgResponseTime := 10 },
   { workload := "B", threads := 1, avgThroughput := 90, avgResponseTime := 15 }]

/-- Example table: five distinct workloads, exhausting the palette. -/
def exTable5 : List Row :=
  [{ workload := "A", threads := 1, avgThroughput := 100, avgResponseTime := 10 },
   { workload := "B", threads := 1, avgThroughput := 90, avgResponseTime := 15 },
   { workload := "C", threads := 1, avgThroughput := 80, avgResponseTime := 20 },
   { workload := "D", threads := 1, avgThroughput := 70, avgResponseTime := 25 },
   { workload := "E", threads := 1, avgThroughput := 60, avgResponseTime := 30 }]

/-- The two-row single-workload table of the spec's worked example. -/
def exC7 : List Row :=
  [{ workload := "A", threads := 1, avgThroughput := 100, avgResponseTime := 10 },
   { workload := "A", threads := 2, avgThroughput := 190, avgResponseTime := 12 }]

/-- Throughput chart of `exTable1`. -/
def exChart1T : List Series :=
  [{ label := "A", color := "tab:blue", points := [(1, 100)] }]

/-- Response-time chart of `exTable1`. -/
def exChart1R : List Series :=
  [{ label := "A", color := "tab:blue", points := [(1, 10)] }]

/-- C1: for every input table with more than 4 distinct Workload values,
the run aborts with an uncaught index error from the fixed 4-entry color
palette, and no image file is written. -/
theorem claim_C1_palette_exhaustion (df : List Row)
    (h : 4 < (uniqueWorkloads df).length) :
    (run (some df)).2 = some RunError.indexError ∧
    ∀ p c, Event.saveFig p c ∉ (run (some df)).1 := by
  have hr := run_overflow df h
  rw [hr]
  exact ⟨rfl, by intro p c; simp⟩

/-- C1 witness: the five-workload table triggers the index error and no
image write. -/
theorem claim_C1_witness :
    (run (some exTable5)).2 = some RunError.indexError ∧
    ∀ p c, Event.saveFig p c ∉ (run (some exTable5)).1 :=
  claim_C1_palette_exhaustion exTable5 (by decide)

/-- C2: whenever a chart is built, its series labels are the distinct
Workload values in first-occurrence order (no duplicates, same membership
as the Workload column, strictly increasing first-occurrence indices), and
each series' points are exactly that workload's rows, in original row
order, as `(Threads, metric)` pairs. -/
theorem claim_C2_grouping (df : List Row) (metric : Row → Rat) (c : List Series)
    (h : buildChart df metric = Except.ok c) :
    c.map Series.label = uniqueWorkloads df ∧
    (uniqueWorkloads df).Nodup ∧
    (∀ w, w ∈ uniqueWorkloads df ↔ w ∈ df.map Row.workload) ∧
    (uniqueWorkloads df).Pairwise (fun a b =>
      firstOccIdx (df.map Row.workload) a < firstOccIdx (df.map Row.workload) b) ∧
    ∀ s ∈ c, s.points = (filterWorkload df s.label).map (fun r => (r.threads, metric r)) := by
  obtain ⟨hl, _, hp⟩ := plotLoop_ok df metric (uniqueWorkloads df) 0 c h
  refine ⟨hl, nodup_pdUniqueAux _ _, ?_, pairwise_firstOccIdx_pdUniqueAux _ _, hp⟩
  intro w
  rw [uniqueWorkloads, mem_pdUniqueAux]
  simp

/-- C2 witness: on the two-row single-workload example table the chart is
built and the grouping facts hold. -/
theorem claim_C2_witness :
    [({ label := "A", color := "tab:blue", points := [(1, 100), (2, 190)] } : Series)].map
        Series.label = uniqueWorkloads exC7 ∧
    (uniqueWorkloads exC7).Nodup ∧
    (∀ w, w ∈ uniqueWorkloads exC7 ↔ w ∈ exC7.map Row.workload) ∧
    (uniqueWorkloads exC7).Pairwise (fun a b =>
      firstOccIdx (exC7.map Row.workload) a < firstOccIdx (exC7.map Row.workload) b) ∧
    ∀ s ∈ [({ label := "A", color := "tab:blue", points := [(1, 100), (2, 190)] } : Series)],
      s.points = (filterWorkload exC7 s.label).map
        (fun r => (r.threads, Row.avgThroughput r)) :=
  claim_C2_grouping exC7 Row.avgThroughput
    [{ label := "A", color := "tab:blue", points := [(1, 100), (2, 190)] }] rfl

/-- C3: for every input table with at most 4 distinct Workload values every
palette access is in bounds: both charts build, both image files are
written and the success message is printed. -/
theorem claim_C3_success_path (df : List Row)
    (h : (uniqueWorkloads df).length ≤ 4) :
    ∃ c1 c2,
      buildChart df Row.avgThroughput = Except.ok c1 ∧
      buildChart df Row.avgResponseTime = Except.ok c2 ∧
      run (some df) = ([Event.makeDirs plotsDir, Event.saveFig throughputPng c1,
        Event.saveFig responseTimePng c2, Event.printMsg successMsg], none) :=
  run_success df h

/-- C3 witness: the one-workload table yields the full successful run. -/
theorem claim_C3_witness :
    ∃ c1 c2,
      buildChart exTable1 Row.avgThroughput = Except.ok c1 ∧
      buildChart exTable1 Row.avgResponseTime = Except.ok c2 ∧
      run (some exTable1) = ([Event.makeDirs plotsDir, Event.saveFig throughputPng c1,
        Event.saveFig responseTimePng c2, Event.printMsg successMsg], none) :=
  claim_C3_success_path exTable1 (by decide)

/-- C4: for 2 to 4 distinct workloads, both charts have exactly one series
per distinct workload (same label sequence, no duplicates), the k-th
workload receives palette color `colors[k]` in both charts, and the used
colors are pairwise distinct. -/
theorem claim_C4_stable_colors (df : List Row)
    (h2 : 2 ≤ (uniqueWorkloads df).length) (h4 : (uniqueWorkloads df).length ≤ 4) :
    ∃ c1 c2,
      buildChart df Row.avgThroughput = Except.ok c1 ∧
      buildChart df Row.avgResponseTime = Except.ok c2 ∧
      c1.map Series.label = uniqueWorkloads df ∧
      c2.map Series.label = uniqueWorkloads df ∧
      (uniqueWorkloads df).Nodup ∧
      c1.map Series.color = colors.take (uniqueWorkloads df).length ∧
      c2.map Series.color = colors.take (uniqueWorkloads df).length ∧
      (colors.take (uniqueWorkloads df).length).Nodup := by
  have hcl : colors.length = 4 := rfl
  obtain ⟨c1, hc1⟩ := plotLoop_total df Row.avgThroughput (uniqueWorkloads df) 0 (by omega)
  obtain ⟨c2, hc2⟩ := plotLoop_total df Row.avgResponseTime (uniqueWorkloads df) 0 (by omega)
  obtain ⟨hl1, hcol1, _⟩ := plotLoop_ok df Row.avgThroughput (uniqueWorkloads df) 0 c1 hc1
  obtain ⟨hl2, hcol2, _⟩ := plotLoop_ok df Row.avgResponseTime (uniqueWorkloads df) 0 c2 hc2
  have hnd : colors.Nodup := by decide
  rw [List.drop_zero] at hcol1 hcol2
  exact ⟨c1, c2, hc1, hc2, hl1, hl2, nodup_pdUniqueAux _ _, hcol1, hcol2,
    hnd.sublist (List.take_sublist _ _)⟩

/-- C4 witness: the two-workload table gets stable distinct colors in both
charts. -/
theorem claim_C4_witness :
    ∃ c1 c2,
      buildChart exTable2 Row.avgThroughput = Except.ok c1 ∧
      buildChart exTable2 Row.avgResponseTime = Except.ok c2 ∧
      c1.map Series.label = uniqueWorkloads exTable2 ∧
      c2.map Series.label = uniqueWorkloads exTable2 ∧
      (uniqueWorkloads exTable2).Nodup ∧
      c1.map Series.color = colors.take (uniqueWorkloads exTable2).length ∧
      c2.map Series.color = colors.take (uniqueWorkloads exTable2).length ∧
      (colors.take (uniqueWorkloads exTable2).length).Nodup :=
  claim_C4_stable_colors exTable2 (by decide) (by decide)

/-- C5: with the input file absent, the run terminates with the uncaught
file-not-found error and performs no side effect at all: in particular the
plots directory is not created and no image is written, because the CSV
load runs before the directory-creation step. -/
theorem claim_C5_missing_input :
    run none = ([], some RunError.fileNotFound) ∧
    Event.makeDirs plotsDir ∉ (run none).1 ∧
    ∀ p c, Event.saveFig p c ∉ (run none).1 :=
  ⟨rfl, by simp [run], by intro p c; simp [run]⟩

/-- C6: the script is deterministic: any two runs on the same input produce
the same side effects and the same outcome. -/
theorem claim_C6_deterministic (inp : Option (List Row))
    (o1 o2 : List Event × Option RunError)
    (h1 : Runs inp o1) (h2 : Runs inp o2) : o1 = o2 := by
  cases h1 <;> cases h2 <;> simp_all

/-- C6 witness: two derivations of the run on the one-workload table agree. -/
theorem claim_C6_witness :
    ([Event.makeDirs plotsDir, Event.saveFig throughputPng exChart1T,
      Event.saveFig responseTimePng exChart1R, Event.printMsg successMsg],
      (none : Option RunError)) = run (some exTable1) :=
  claim_C6_deterministic (some exTable1) _ _
    (Runs.success exTable1 exChart1T exChart1R rfl rfl) (runs_run (some exTable1))

/-- C7: on the spec's two-row example table, the run saves a throughput
chart consisting of exactly one line series through the points (1, 100)
and (2, 190). -/
theorem claim_C7_example :
    Event.saveFig throughputPng
        [{ label := "A", color := "tab:blue", points := [(1, 100), (2, 190)] }] ∈
      (run (some exC7)).1 := by decide

/-- C8: the throughput image is always saved before the response-time
image: whenever the response-time save appears in a run's effects, the
first chart succeeded and the effects are exactly makedirs, throughput
save, response-time save, print, in that order; and a failure of the first
chart's loop prevents both saves. -/
theorem claim_C8_save_order (inp : Option (List Row)) (c2 : List Series)
    (h : Event.saveFig responseTimePng c2 ∈ (run inp).1) :
    (∃ df c1, inp = some df ∧
      buildChart df Row.avgThroughput = Except.ok c1 ∧
      (run inp).1 = [Event.makeDirs plotsDir, Event.saveFig throughputPng c1,
        Event.saveFig responseTimePng c2, Event.printMsg successMsg]) ∧
    ∀ df e, buildChart df Row.avgThroughput = Except.error e →
      ∀ p c, Event.saveFig p c ∉ (run (some df)).1 := by
  constructor
  · cases inp with
    | none => simp [run] at h
    | some df =>
      cases h1 : buildChart df Row.avgThroughput with
      | error e =>
        have hr : run (some df) = ([Event.makeDirs plotsDir], some e) := by
          simp [run, h1]
        rw [hr] at h
        simp only [List.mem_cons, List.not_mem_nil, or_false] at h
        exact Event.noConfusion h
      | ok c1 =>
        cases hB : buildChart df Row.avgResponseTime with
        | error e =>
          have hr : run (some df) =
              ([Event.makeDirs plotsDir, Event.saveFig throughputPng c1], some e) := by
            simp [run, h1, hB]
          rw [hr] at h
          simp only [List.mem_cons, List.not_mem_nil, or_false] at h
          rcases h with h | h
          · exact Event.noConfusion h
          · injection h with hp _
            exact absurd hp (by decide)
        | ok c2A =>
          have hr : run (some df) =
              ([Event.makeDirs plotsDir, Event.saveFig throughputPng c1,
                Event.saveFig responseTimePng c2A, Event.printMsg successMsg], none) := by
            simp [run, h1, hB]
          rw [hr] at h
          simp only [List.mem_cons, List.not_mem_nil, or_false] at h
          have hc2 : c2 = c2A := by
            rcases h with h | h | h | h
            · exact Event.noConfusion h
            · injection h with hp _
              exact absurd hp (by decide)
            · injection h with _ hc
            · exact Event.noConfusion h
          refine ⟨df, c1, rfl, h1, ?_⟩
          rw [hr, hc2]
  · intro df e he p c hc
    have hr : run (some df) = ([Event.makeDirs plotsDir], some e) := by
      simp [run, he]
    rw [hr] at hc
    simp only [List.mem_cons, List.not_mem_nil, or_false] at hc
    exact Event.noConfusion hc

/-- C8 witness: on the one-workload table the response-time save appears,
and the effects are the four in order. -/
theorem claim_C8_witness :
    (∃ df c1, some exTable1 = some df ∧
      buildChart df Row.avgThroughput = Except.ok c1 ∧
      (run (some exTable1)).1 = [Event.makeDirs plotsDir, Event.saveFig throughputPng c1,
        Event.saveFig responseTimePng exChart1R, Event.printMsg successMsg]) ∧
    ∀ df e, buildChart df Row.avgThroughput = Except.error e →
      ∀ p c, Event.saveFig p c ∉ (run (some df)).1 :=
  claim_C8_save_order (some exTable1) exChart1R (by decide)

/-- C9: on a table with zero data rows the run succeeds: there are no
distinct workloads, both charts are empty, both images are saved and the
success message is printed. -/
theorem claim_C9_empty_table :
    uniqueWorkloads [] = [] ∧
    run (some ([] : List Row)) =
      ([Event.makeDirs plotsDir, Event.saveFig throughputPng [],
        Event.saveFig responseTimePng [], Event.printMsg successMsg], none) :=
  ⟨rfl, rfl⟩

/-- C10: with more than 4 distinct workloads the run's only side effect is
the creation of the plots directory (which happens after the load and
before any chart is drawn, and is not rolled back), while the index error
aborts the run with no image written. -/
theorem claim_C10_dir_side_effect (df : List Row)
    (h : 4 < (uniqueWorkloads df).length) :
    (run (some df)).1 = [Event.makeDirs plotsDir] ∧
    (run (some df)).2 = some RunError.indexError := by
  have hr := run_overflow df h
  rw [hr]
  exact ⟨rfl, rfl⟩

/-- C10 witness: on the five-workload table the directory creation is the
only side effect and the index error is the outcome. -/
theorem claim_C10_witness :
    (run (some exTable5)).1 = [Event.makeDirs plotsDir] ∧
    (run (some exTable5)).2 = some RunError.indexError :=
  claim_C10_dir_side_effect exTable5 (by decide)
